import Mathlib

/-!
Verification of the geomag-fdsnws-query stream alignment and fixed-format
serialization core.

The development shallowly embeds:
  * the `Trace`/`Stream` data model of `pygeomag/data/stream.py` (an obspy
    `Stream` of traces; samples are rationals, masked samples are `none`),
  * `Stream.merge_by_location` from `pygeomag/data/stream.py` together with
    the obspy primitives it calls (`select`, `sort(keys=['location'])`,
    `merge(method=1)`), modelled from obspy's behaviour as pinned by the
    repository's own tests in `tests/test_stream.py`,
  * `pygeomag/data/formats/lib.py` (`is_common_traces`, `order_stream`),
  * the IAGA-2002, internet and IMFv1.22 encoders
    (`pygeomag/data/formats/iaga2002.py`, `internet.py`, `imfv122.py`).

Machine floats holding sample values are embedded as exact rationals: every
value the repository's tests and the claims exercise is exactly
representable, and the encoders only compare, scale by 10/100 and print with
two or three decimals.  Timestamps and sample intervals (obspy `UTCDateTime`
and `stats.delta`) are integer milliseconds since 1970-01-01T00:00:00Z,
exact for every sampling rate this code base handles; `strftime` is embedded
through the standard civil calendar conversion.
-/

namespace Geomag

/-! ### Decimal digit strings (model of Python's `str`/`%d` on integers) -/

/-- Character for a decimal digit `0..9`. -/
def digitChar (n : Nat) : Char := Char.ofNat (48 + n)

/-- Decimal digits of `n`, most significant first.  The first argument is
fuel; `natDigits` supplies enough for any `n`. -/
def natDigitsAux : Nat → Nat → List Char
  | 0, _ => []
  | fuel + 1, n =>
    if n < 10 then [digitChar n]
    else natDigitsAux fuel (n / 10) ++ [digitChar (n % 10)]

/-- Decimal digits of a natural number, most significant first. -/
def natDigits (n : Nat) : List Char := natDigitsAux (n + 1) n

/-- Decimal representation of a natural number. -/
def natRepr (n : Nat) : String := ⟨natDigits n⟩

/-- Decimal representation of an integer (Python `"%d"`). -/
def intRepr (i : Int) : String :=
  if i < 0 then "-" ++ natRepr (-i).toNat else natRepr i.toNat

/-- Left-pad `s` with copies of `c` up to width `w`. -/
def padLeft (c : Char) (w : Nat) (s : String) : String :=
  ⟨List.replicate (w - s.length) c⟩ ++ s

/-- Right-pad `s` with spaces up to width `w` (Python `"%-Ns"`). -/
def padRight (w : Nat) (s : String) : String :=
  s ++ ⟨List.replicate (w - s.length) ' '⟩

/-- Python `"%0Nd"` on a natural number. -/
def natZeroPad (w : Nat) (n : Nat) : String := padLeft '0' w (natRepr n)

/-- Python `"%0Nd"` on an integer: the sign precedes the zero padding. -/
def intZeroPad (w : Nat) (i : Int) : String :=
  if i < 0 then "-" ++ natZeroPad (w - 1) (-i).toNat else natZeroPad w i.toNat

/-- Python `"%Nd"` on an integer (space padded). -/
def intSpacePad (w : Nat) (i : Int) : String := padLeft ' ' w (intRepr i)

/-- Python slice `s[:n]`. -/
def strTake (s : String) (n : Nat) : String := ⟨s.data.take n⟩

/-- Python slice `s[-n:]`. -/
def strTakeRight (s : String) (n : Nat) : String :=
  ⟨s.data.drop (s.data.length - n)⟩

/-- Python `s.endswith(suffix)`. -/
def strEndsWith (s suff : String) : Bool :=
  decide (s.data.drop (s.data.length - suff.data.length) = suff.data)

/-- `p` is an initial segment of `l`. -/
def charsStart : List Char → List Char → Bool
  | [], _ => true
  | _ :: _, [] => false
  | a :: as, b :: bs => a == b && charsStart as bs

/-- `p` occurs as a contiguous segment of `l` (Python `p in l`). -/
def charsContain (p : List Char) : List Char → Bool
  | [] => charsStart p []
  | b :: rest => charsStart p (b :: rest) || charsContain p rest

/-- ASCII uppercasing of one character (Python `str.upper` on the ASCII
codes this data model carries). -/
def charUpper (c : Char) : Char :=
  if 'a' ≤ c ∧ c ≤ 'z' then Char.ofNat (c.toNat - 32) else c

/-- Python `s.upper()`. -/
def strToUpper (s : String) : String := ⟨s.data.map charUpper⟩

/-- Lexicographic strict order on character lists (by code point), the
order Python uses on ASCII strings and obspy uses to sort location
codes. -/
def charListLt : List Char → List Char → Bool
  | _, [] => false
  | [], _ :: _ => true
  | a :: as, b :: bs =>
    if a.toNat < b.toNat then true
    else if b.toNat < a.toNat then false
    else charListLt as bs

/-- Python `a < b` on strings. -/
def strLt (a b : String) : Bool := charListLt a.data b.data

/-- Truncation of a rational toward zero: Python `int()` / `"%d"` applied to
a float holding an exact rational.  `Int.tdiv` truncates toward zero. -/
def ratTrunc (q : ℚ) : Int := q.num.tdiv (q.den : Int)

/-- Python `int(x * 10)` as used by the IMFv1.22 minute records: scale by
ten, then truncate toward zero. -/
def ratTimes10Trunc (q : ℚ) : Int := (10 * q.num).tdiv (q.den : Int)

/-- Fixed two-decimal rendering of a rational (Python `"%.2f"` on floats
that hold exact centesimal values; ties round up, which no value appearing
in this code base exercises).  The hundredths count is
`⌊|q| * 100 + 1/2⌋`, computed on numerator and denominator so that it
evaluates by plain integer arithmetic. -/
def ratFixed2 (q : ℚ) : String :=
  let neg := q < 0
  let c : Nat := (200 * q.num.natAbs + q.den) / (2 * q.den)
  (if neg then "-" else "") ++ natRepr (c / 100) ++ "." ++ natZeroPad 2 (c % 100)

/-- Python `"%N.2f"`: two decimals, space padded to width `w`. -/
def fmtF2 (w : Nat) (q : ℚ) : String := padLeft ' ' w (ratFixed2 q)

/-- Fixed three-decimal rendering (Python `"%.3f"`), used by the IAGA-2002
header for latitude, longitude and elevation; the thousandths count is
`⌊|q| * 1000 + 1/2⌋`. -/
def ratFixed3 (q : ℚ) : String :=
  let neg := q < 0
  let c : Nat := (2000 * q.num.natAbs + q.den) / (2 * q.den)
  (if neg then "-" else "") ++ natRepr (c / 1000) ++ "." ++ natZeroPad 3 (c % 1000)

/-! ### Civil calendar (model of `UTCDateTime`/`datetime.strftime`)

Timestamps and sample intervals are integer counts of MILLISECONDS since
1970-01-01T00:00:00Z.  Every sampling rate this code base handles
(`M` = 0.125 s, `L` = 1 s, `U` = 60 s) and every timestamp it prints (the
formats print at most millisecond precision) is exact in this unit.

The conversions between days-since-epoch and `(year, month, day)` are the
standard proleptic-Gregorian algorithms used by every civil-time library. -/

/-- Days between 1970-01-01 and the civil date `(y, m, d)`. -/
def daysFromCivil (y m d : Int) : Int :=
  let y' := if m ≤ 2 then y - 1 else y
  let era := Int.fdiv y' 400
  let yoe := y' - era * 400
  let mp := Int.emod (m + 9) 12
  let doy := (153 * mp + 2) / 5 + d - 1
  let doe := yoe * 365 + yoe / 4 - yoe / 100 + doy
  era * 146097 + doe - 719468

/-- Civil date `(year, month, day)` of a days-since-epoch count. -/
def civilFromDays (z0 : Int) : Int × Int × Int :=
  let z := z0 + 719468
  let era := Int.fdiv z 146097
  let doe := z - era * 146097
  let yoe := (doe - doe / 1460 + doe / 36524 - doe / 146096) / 365
  let y := yoe + era * 400
  let doy := doe - (365 * yoe + yoe / 4 - yoe / 100)
  let mp := (5 * doy + 2) / 153
  let d := doy - (153 * mp + 2) / 5 + 1
  let m := mp + (if mp < 10 then 3 else -9)
  (if m ≤ 2 then y + 1 else y, m, d)

/-- Milliseconds since 1970-01-01T00:00:00Z of a civil date and time of
day: the embedding of `UTCDateTime(y, mo, d, h, mi, s)`. -/
def mkTime (y mo d h mi s : Int) : Int :=
  (daysFromCivil y mo d * 86400 + h * 3600 + mi * 60 + s) * 1000

/-- Days-since-epoch of a timestamp. -/
def tsDay (t : Int) : Int := t.fdiv 86400000

/-- Start of the calendar day containing `t`: the embedding of
`UTCDateTime(x.date)`. -/
def dayStart (t : Int) : Int := 86400000 * tsDay t

/-- Whole seconds elapsed in the calendar day of `t`. -/
def tsSecOfDay (t : Int) : Int := (t.fmod 86400000).fdiv 1000

/-- Milliseconds part of a timestamp: `strftime("%f")` prints the
microseconds zero-padded to six digits, and `[:-3]` keeps their first
three digits, which is the millisecond count zero-padded to three. -/
def tsMillis (t : Int) : Int := t.fmod 1000

/-- Civil date of a timestamp. -/
def tsCivil (t : Int) : Int × Int × Int := civilFromDays (tsDay t)

/-- 1-based ordinal day within the year (`strftime("%j")`, unpadded). -/
def tsDayOfYear (t : Int) : Int :=
  tsDay t - daysFromCivil (tsCivil t).1 1 1 + 1

/-- `strftime("%j")`: zero-padded 3-digit day of year. -/
def fmtDoy (t : Int) : String := intZeroPad 3 (tsDayOfYear t)

/-- `strftime("%H:%M:%S")`. -/
def fmtHMS (t : Int) : String :=
  let s := tsSecOfDay t
  intZeroPad 2 (s / 3600) ++ ":" ++ intZeroPad 2 (s % 3600 / 60) ++ ":" ++
    intZeroPad 2 (s % 60)

/-- `strftime("%Y-%m-%d")`. -/
def fmtYMD (t : Int) : String :=
  let c := tsCivil t
  intZeroPad 4 c.1 ++ "-" ++ intZeroPad 2 c.2.1 ++ "-" ++ intZeroPad 2 c.2.2

/-- Milliseconds suffix: `strftime(".%f")[:-3]`. -/
def fmtMillis (t : Int) : String := "." ++ intZeroPad 3 (tsMillis t)

/-- `strftime("%Y-%m-%d %H:%M:%S.%f")[:-3]` as used by the IAGA-2002 body. -/
def fmtIagaTimestamp (t : Int) : String :=
  fmtYMD t ++ " " ++ fmtHMS t ++ fmtMillis t

end Geomag

namespace Geomag

/-! ### Data model: `Trace` and `Stream`

An obspy trace: one component's samples plus identity metadata.  A masked
(missing) sample is `none`.  `delta` is the sample interval and
`starttime` the start timestamp, both in integer milliseconds (obspy's
`stats.delta` and `stats.starttime` in seconds;
`stats.sampling_rate = 1/delta`). -/

structure Trace where
  network : String
  station : String
  location : String
  channel : String
  delta : Int
  starttime : Int
  data : List (Option ℚ)
  deriving DecidableEq, Repr

/-- obspy `stats.endtime`: `starttime + (npts - 1) * delta`. -/
def Trace.endtime (tr : Trace) : Int :=
  tr.starttime + ((tr.data.length : Int) - 1) * tr.delta

/-- obspy `stats.sampling_rate` in Hz (`delta` is in milliseconds). -/
def Trace.samplingRate (tr : Trace) : ℚ := 1000 / (tr.delta : ℚ)

/-- A stream is an ordered collection of traces. -/
abbrev Stream' := List Trace

/-- The sample of `tr` at absolute time `t`: `some v` when `t` falls on the
trace's sample grid inside its coverage and the sample is unmasked, `none`
when the position is uncovered, off-grid or masked.  This is the view the
encoders build by `filled(NULL)` followed by `trim(..., pad=True,
fill_value=NULL)`: both missing kinds are later replaced by the format's
null value. -/
def Trace.sampleAt (tr : Trace) (t : Int) : Option ℚ :=
  if tr.delta ≠ 0 then
    let k : Int := (t - tr.starttime).ediv tr.delta
    if (t - tr.starttime).emod tr.delta = 0 ∧ 0 ≤ k ∧ k < tr.data.length then
      (tr.data.get? k.toNat).join
    else none
  else none

end Geomag

namespace Geomag

/-! ### obspy list primitives used by the core

Python's `sorted`/`list.sort` is stable; the model is a stable insertion
sort (`x` is inserted after every strictly smaller element and before the
first element that is not strictly smaller, so equal keys keep their
original relative order). -/

/-- Stable insertion of `x` into `l` with respect to the strict order
`lt`. -/
def sInsert (lt : α → α → Bool) (x : α) : List α → List α
  | [] => [x]
  | y :: ys => if lt y x then y :: sInsert lt x ys else x :: y :: ys

/-- Stable sort with respect to the strict order `lt` (model of Python's
stable `list.sort`). -/
def sSort (lt : α → α → Bool) : List α → List α
  | [] => []
  | x :: xs => sInsert lt x (sSort lt xs)

/-- Group maximal runs of consecutive elements related by `eq`. -/
def groupRunsGo (eq : α → α → Bool) (acc : List α) (a : α) :
    List α → List (List α)
  | [] => [(a :: acc).reverse]
  | b :: rest =>
    if eq a b then groupRunsGo eq (a :: acc) b rest
    else (a :: acc).reverse :: groupRunsGo eq [] b rest

/-- Group a list into maximal runs of consecutive elements related by
`eq`. -/
def groupRuns (eq : α → α → Bool) : List α → List (List α)
  | [] => []
  | a :: rest => groupRunsGo eq [] a rest

/-! ### `Stream.merge(method=1)` and `Trace.__add__`

`Stream.merge_by_location` relies on obspy's `Stream.merge(method=1)`.
obspy's `merge` sorts the traces by `(network, station, location, channel,
starttime, endtime)`, groups them by trace id, left-folds each group with
`Trace.__add__(method=1)` and finally restores the original stream order,
placing the newly created (merged) traces first.

`merge_by_location` only ever merges traces that share their whole span
(the repository's tests `test_merge_by_location*` all use same start, same
length): for that case obspy's `__add__` takes the "contained trace"
branch, which

  * if the overlapping unmasked samples of both traces agree, keeps the
    left (first) trace and fills its masked samples from the right one;
  * otherwise (`method=1`) keeps the left trace's data unchanged.

This is exactly what the repository's tests pin down: merging `[1,2,3]`
(location `R1`) with `[1,2,4]` (location `R2`) yields `[1,2,3]`, and
merging `[1,2,<masked>]` with `[1,2,4]` yields `[1,2,4]`. -/

/-- The overlapping unmasked samples of the two data arrays agree
(obspy's `data_equal` check, with masked positions counting as equal). -/
def dataCompatible (a b : List (Option ℚ)) : Bool :=
  (a.zip b).all fun p =>
    match p with
    | (some v, some w) => v == w
    | _ => true

/-- obspy `Trace.__add__(method=1)` for two traces covering the same span
(identical start time, sample interval and length): the left trace wins
where it has data; where it is masked and the arrays are compatible, the
right trace's sample fills the gap.  Header (stats) taken from the left
trace. -/
def addTracesSameSpan (lt rt : Trace) : Trace :=
  { lt with
    data :=
      if dataCompatible lt.data rt.data then
        (lt.data.zip rt.data).map fun p =>
          match p with
          | (some v, _) => some v
          | (none, w) => w
      else lt.data }

/-- obspy trace id used as the `merge` grouping key. -/
def traceIdEq (a b : Trace) : Bool :=
  a.network == b.network && a.station == b.station &&
    a.location == b.location && a.channel == b.channel

/-- The sort key used inside obspy `Stream.merge`:
`(network, station, location, channel, starttime, endtime)`
lexicographically. -/
def mergeKeyLt (a b : Trace) : Bool :=
  if a.network != b.network then strLt a.network b.network
  else if a.station != b.station then strLt a.station b.station
  else if a.location != b.location then strLt a.location b.location
  else if a.channel != b.channel then strLt a.channel b.channel
  else if a.starttime != b.starttime then decide (a.starttime < b.starttime)
  else decide (a.endtime < b.endtime)

/-- obspy `Stream.merge(method=1)`.  Traces are tagged with their original
position; after sorting and folding each id group with `__add__`, traces
that result from an actual merge carry position `-1` and the final stable
sort by original position restores the order, newly created traces
first. -/
def streamMerge1 (s : Stream') : Stream' :=
  let tagged := s.enum.map fun p => ((p.1 : Int), p.2)
  let sorted := sSort (fun a b => mergeKeyLt a.2 b.2) tagged
  let groups := groupRuns (fun a b => traceIdEq a.2 b.2) sorted
  let folded := groups.filterMap fun g =>
    match g with
    | [] => none
    | [x] => some x
    | x :: y :: rest =>
      some (-1, (y :: rest).foldl (fun c t => addTracesSameSpan c t.2) x.2)
  (sSort (fun a b => decide (a.1 < b.1)) folded).map Prod.snd

/-! ### `Stream.merge_by_location` (`pygeomag/data/stream.py`) -/

/-- `"%02d" % idx` applied to the synthetic location rank. -/
def rankLocation (idx : Nat) : String := natZeroPad 2 idx

/-- The `locations is not None` branch of `merge_by_location`: for each
listed location code in turn, select the matching traces from the working
stream, rename their location to the two-digit rank, and append them to
the new stream.  Returns the extracted renamed traces. -/
def renameByOrder : Stream' → List String → Nat → Stream'
  | _, [], _ => []
  | s, loc :: rest, idx =>
    let matched := (s.filter fun tr => tr.location == loc).map
      fun tr => { tr with location := rankLocation idx }
    let s' := s.map fun tr =>
      if tr.location == loc then { tr with location := rankLocation idx } else tr
    matched ++ renameByOrder s' rest (idx + 1)

/-- `Stream.merge_by_location(locations, replace_location)`: optionally
reassign listed locations a two-digit rank (dropping unlisted codes),
sort by location code (stable), erase every location code to
`replaceLocation`, and run obspy `merge(method=1)`. -/
def mergeByLocation (s : Stream') (locations : Option (List String))
    (replaceLocation : String) : Stream' :=
  let newStream :=
    match locations with
    | some locs => renameByOrder s locs 0
    | none => s
  let sorted := sSort (fun a b => strLt a.location b.location) newStream
  let erased := sorted.map fun tr => { tr with location := replaceLocation }
  streamMerge1 erased

/-! ### `pygeomag/data/formats/lib.py` -/

/-- `is_common_traces(stream, ['network', 'station', 'sampling_rate'])`:
every trace matches the first trace on the three identity fields (equal
positive sample intervals have equal sampling rates, so the rate check is
the `delta` check). -/
def isCommonTraces (s : Stream') : Bool :=
  match s with
  | [] => true
  | t :: rest => rest.all fun tr =>
      tr.network == t.network && tr.station == t.station && tr.delta == t.delta

/-- obspy `stream.select(component=c)`: the traces whose channel code ends
with the component letter (both sides uppercased). -/
def selectComponent (s : Stream') (c : String) : Stream' :=
  s.filter fun tr => strEndsWith (strToUpper tr.channel) (strToUpper c)

/-- The synthesized placeholder of `order_stream` for a component with no
matching trace: the first trace's header with the channel's last character
rewritten to the component and zero samples. -/
def synthTrace (first : Trace) (c : String) : Trace :=
  { first with channel := first.channel.dropRight 1 ++ c, data := [] }

/-- Error message of `order_stream` for an empty stream. -/
def emptyStreamMsg : String :=
  "We cannot reorder the components of an empty stream object"

/-- Error message of `order_stream` for duplicated components. -/
def ambiguousMsg : String :=
  "The obspy Stream can not have mutliple identical components.  Recommend merging by component."

/-- The per-component loop of `order_stream`. -/
def orderStreamAux (s : Stream') (first : Trace) :
    List String → Except String Stream'
  | [] => .ok []
  | c :: cs =>
    match selectComponent s c with
    | [] => (orderStreamAux s first cs).map fun rest => synthTrace first c :: rest
    | [t] => (orderStreamAux s first cs).map fun rest => t :: rest
    | _ :: _ :: _ => .error ambiguousMsg

/-- The component order shared by all three encoders. -/
def COMPONENTS : List String := ["X", "Y", "Z", "F"]

/-- `lib.order_stream(stream, components)`: reorder the stream into the
fixed component order, synthesizing empty placeholder traces for missing
components and failing when a component matches more than one trace. -/
def orderStream (s : Stream') (components : List String := COMPONENTS) :
    Except String Stream' :=
  match s with
  | [] => .error emptyStreamMsg
  | first :: _ => orderStreamAux s first components

end Geomag

namespace Geomag

/-! ### Station descriptor (obspy `Inventory`, reduced to the one station
the encoders read) -/

structure Inventory where
  source : String
  name : String
  latitude : ℚ
  longitude : ℚ
  elevation : ℚ
  deriving DecidableEq, Repr

/-- Error message shared by all three `write` routines when the traces
disagree on network/station/sampling rate. -/
def commonMsg : String :=
  "All traces in the stream must come from the same station and sampling rate"

/-- Indexed sample lookup over the ordered 4-trace stream: the value of
`nstream[k]` at absolute time `t` after the mask fill and the
`trim(pad=True)` of the encoders (an index beyond the stream is never
reached by the encoders, which only run on the 4-trace output of
`order_stream`). -/
def streamSampleAt (ost : Stream') (k : Nat) (t : Int) : Option ℚ :=
  match ost.get? k with
  | some tr => tr.sampleAt t
  | none => none

/-- The per-sample value selection shared by the IAGA-2002 and internet
bodies: `components.append(x if x and x < NULL_VALUE else NULL_VALUE)`
where `x` is the trimmed, gap-filled sample.  A missing sample was already
replaced by the null value, and `x and ...` is Python float truthiness, so
a sample equal to `0.0` also renders as the null value. -/
def truthyRender (nullValue : ℚ) (x : Option ℚ) : ℚ :=
  let v := x.getD nullValue
  if v ≠ 0 ∧ v < nullValue then v else nullValue

/-! ### IAGA-2002 encoder (`pygeomag/data/formats/iaga2002.py`) -/

/-- `NULL_VALUE` of the IAGA-2002 and internet formats. -/
def iagaNull : ℚ := 99999

/-- `DATA_INTERVAL_TYPES.get(channel[0], '')`. -/
def dataIntervalType (c : String) : String :=
  if c = "M" then "0.125 second"
  else if c = "L" then "1 second"
  else if c = "U" then "1 minute (00:30-01:29)"
  else ""

/-- `DATA_TYPES.get(location[0], '')`. -/
def dataType (c : String) : String :=
  if c = "R" then "variation" else if c = "D" then "definitive" else ""

/-- One `" %-23s %-44s|"` header line. -/
def iagaHeaderLine (label value : String) : String :=
  " " ++ padRight 23 label ++ " " ++ padRight 44 value ++ "|"

/-- `_get_headers`: the 12 labelled header lines. -/
def iagaGetHeaders (ost : Stream') (inv : Option Inventory)
    (src : Option String) : List String :=
  let source :=
    match src with
    | some x => x
    | none => match inv with | some i => i.source | none => ""
  let reported := strToUpper (String.join (ost.map fun tr => strTakeRight tr.channel 1))
  let first := ost.headD ⟨"", "", "", "", 0, 0, []⟩
  let intervalType := dataIntervalType (strTake first.channel 1)
  let dtype := if first.location.length ≠ 0 then dataType (strTake first.location 1) else ""
  [iagaHeaderLine "Format" "IAGA-2002",
   iagaHeaderLine "Source of Data" source,
   iagaHeaderLine "Station Name" (match inv with | some i => i.name | none => ""),
   iagaHeaderLine "IAGA CODE" first.station,
   iagaHeaderLine "Geodetic Latitude"
     (match inv with | some i => ratFixed3 i.latitude | none => "0"),
   iagaHeaderLine "Geodetic Longitude"
     (match inv with | some i => ratFixed3 i.longitude | none => "0"),
   iagaHeaderLine "Elevation"
     (match inv with | some i => ratFixed3 i.elevation | none => "0"),
   iagaHeaderLine "Reported" reported,
   iagaHeaderLine "Sensor Orientation" "",
   iagaHeaderLine "Digital Sampling" "",
   iagaHeaderLine "Data Interval Type" intervalType,
   iagaHeaderLine "Data Type" dtype]

/-- The two fixed DECBAS comment lines appended by `_write_header`. -/
def decbasLines : List String :=
  [" # DECBAS                000000 (Baseline declination value in       |",
   " #                       tenths of minutes East (0-216,000)).        |"]

/-- `_write_header`: the text written to the sink before the body. -/
def iagaHeaderText (ost : Stream') (inv : Option Inventory)
    (src : Option String) : String :=
  String.intercalate "\r\n" (iagaGetHeaders ost inv src ++ decbasLines) ++ "\r\n"

/-- Day-range error message of the IAGA-2002 body. -/
def dayRangeMsg : String :=
  "The obspy data stream does not contain data for the same day"

/-- The IAGA-2002 column-header line. -/
def iagaColumnHeader (station : String) : String :=
  "DATE       TIME         DOY     " ++
    padLeft ' ' 3 station ++ "X" ++ "      " ++
    padLeft ' ' 3 station ++ "Y" ++ "      " ++
    padLeft ' ' 3 station ++ "Z" ++ "      " ++
    padLeft ' ' 3 station ++ "F" ++ "   |\r\n"

/-- One IAGA-2002 body row at sample offset `off` from the day start
(`starttime + offset/sampling_rate` is `starttime + offset * delta`). -/
def iagaRow (ost : Stream') (start delta : Int) (off : Nat) : String :=
  let t := start + (off : Int) * delta
  let v := fun k => truthyRender iagaNull (streamSampleAt ost k t)
  fmtIagaTimestamp t ++ " " ++ fmtDoy t ++ "    " ++
    fmtF2 9 (v 0) ++ " " ++ fmtF2 9 (v 1) ++ " " ++
    fmtF2 9 (v 2) ++ " " ++ fmtF2 9 (v 3) ++ "\r\n"

/-- `_write_body` on the ordered stream: validates the single-day window,
then emits the column header and one row per sample of the gap-filled
window `[day start, max endtime]`. -/
def iagaBody (ost : Stream') : Except String String :=
  match ost with
  | [] => .error emptyStreamMsg
  | t0 :: _ =>
    let starttime := dayStart t0.starttime
    let endtime := ost.foldl (fun m tr => max m tr.endtime) t0.endtime
    if endtime ≥ starttime + 86400000 then .error dayRangeMsg
    else
      let n := ((endtime - starttime).ediv t0.delta + 1).toNat
      .ok (iagaColumnHeader t0.station ++
        String.join ((List.range n).map (iagaRow ost starttime t0.delta)))

/-- `iaga2002.write` through an in-memory sink: returns the text written
to the sink and the error raised, if any (the header text is written
before the body is computed, so it survives a body failure). -/
def iaga2002Write (s : Stream') (inv : Option Inventory)
    (src : Option String) : String × Option String :=
  if ¬ isCommonTraces s then ("", some commonMsg)
  else
    match orderStream s COMPONENTS with
    | .error e => ("", some e)
    | .ok ost =>
      let hdr := iagaHeaderText ost inv src
      match iagaBody ost with
      | .error e => (hdr, some e)
      | .ok body => (hdr ++ body, none)

end Geomag

namespace Geomag

/-! ### Internet format encoder
(`build/lib/pygeomag/data/formats/internet.py`) -/

/-- `strftime("%Y %j:%H:%M:%S")`: the fraction-free internet timestamp. -/
def internetTsBase (t : Int) : String :=
  intZeroPad 4 (tsCivil t).1 ++ " " ++ fmtDoy t ++ ":" ++ fmtHMS t

/-- The internet-format timestamp: the body keeps
`strftime("%Y %j:%H:%M:%S")` when `sampling_rate < 1` and otherwise
appends the millisecond fraction (`strftime(".%f")[:-3]`). -/
def internetTimestamp (samplingRate : ℚ) (t : Int) : String :=
  if samplingRate < 1 then internetTsBase t
  else internetTsBase t ++ fmtMillis t

/-- One line of the internet body (`"%.2f"` values, no column padding);
the sample time `starttime + offset/sampling_rate` is
`starttime + offset * delta` in milliseconds. -/
def internetLine (ost : Stream') (station : String) (samplingRate : ℚ)
    (delta start : Int) (off : Nat) : String :=
  let t := start + (off : Int) * delta
  let v := fun k => truthyRender iagaNull (streamSampleAt ost k t)
  station ++ " " ++ internetTimestamp samplingRate t ++ " " ++
    ratFixed2 (v 0) ++ " " ++ ratFixed2 (v 1) ++ " " ++
    ratFixed2 (v 2) ++ " " ++ ratFixed2 (v 3) ++ "\n"

/-- `internet._write_body`: one line per sample of the gap-filled window
`[min starttime, max endtime]`. -/
def internetBody (ost : Stream') : String :=
  match ost with
  | [] => ""
  | t0 :: _ =>
    let starttime := ost.foldl (fun m tr => min m tr.starttime) t0.starttime
    let endtime := ost.foldl (fun m tr => max m tr.endtime) t0.endtime
    let n := ((endtime - starttime).ediv t0.delta + 1).toNat
    String.join ((List.range n).map
      (internetLine ost t0.station t0.samplingRate t0.delta starttime))

/-- `internet.write` through an in-memory sink. -/
def internetWrite (s : Stream') : String × Option String :=
  if ¬ isCommonTraces s then ("", some commonMsg)
  else
    match orderStream s COMPONENTS with
    | .error e => ("", some e)
    | .ok ost => (internetBody ost, none)

/-! ### IMFv1.22 encoder
(`build/lib/pygeomag/data/formats/imfv122.py`) -/

/-- `NULL_VALUE` of the IMFv1.22 format. -/
def imfNull : ℚ := ⟨9999999, 100, by norm_num, by norm_num⟩

/-- `MONTHS_STR`. -/
def MONTHS_STR : List String :=
  ["JAN", "FEB", "MAR", "APR", "MAY", "JUN", "JUL", "AUG",
   "SEP", "OCT", "NOV", "DEC"]

/-- Error message raised by `imfv122.write` for non-minute data. -/
def intervalMsg : String := "Only minute data is supported in IMFv1.22 format"

/-- Error message raised by the IMFv1.22 body when the trimmed day is not
exactly 1440 samples. -/
def fullDayMsg : String :=
  "Error, the trace does not contain a full day worth of data"

/-- The IMFv1.22 per-sample selection: the trimmed, gap-filled sample with
values at or above the null sentinel replaced by it (no truthiness test
here, unlike IAGA-2002/internet). -/
def imfRender (x : Option ℚ) : ℚ :=
  let v := x.getD imfNull
  if v < imfNull then v else imfNull

/-- `MONTHS_STR[month-1] + starttime.strftime("%d%y")`. -/
def imfDate (t : Int) : String :=
  let c := tsCivil t
  (MONTHS_STR.getD (c.2.1 - 1).toNat "") ++
    intZeroPad 2 c.2.2 ++ intZeroPad 2 (Int.emod c.1 100)

/-- The hourly header line
`"%3s %s %s %02d XYZF R OTT %04d%04d 000000 RRRRRRRRRRRRRRRR\n"`. -/
def imfHourHeader (station : String) (day : Int) (colat10 long10 : ℚ)
    (hour : Nat) : String :=
  padLeft ' ' 3 station ++ " " ++ imfDate day ++ " " ++ fmtDoy day ++ " " ++
    natZeroPad 2 hour ++ " XYZF R OTT " ++
    intZeroPad 4 (ratTrunc colat10) ++ intZeroPad 4 (ratTrunc long10) ++
    " 000000 RRRRRRRRRRRRRRRR\n"

/-- One minute record `"%7d %7d %7d %6d"`: each field is the gap-filled
sample times 10, truncated to an integer. -/
def imfMinuteRec (ost : Stream') (day : Int) (idx : Nat) : String :=
  let f := fun k =>
    ratTimes10Trunc (imfRender (streamSampleAt ost k (day + (idx : Int) * 60000)))
  intSpacePad 7 (f 0) ++ " " ++ intSpacePad 7 (f 1) ++ " " ++
    intSpacePad 7 (f 2) ++ " " ++ intSpacePad 6 (f 3)

/-- The sequence of chunks written by the IMFv1.22 body: for each of the
24 hours, the hour header, then for each of the 60 minutes the minute
record followed by `"\n"` after an odd minute and `"  "` after an even
one. -/
def imfBodyChunks (ost : Stream') (inv : Option Inventory) : List String :=
  match ost with
  | [] => []
  | t0 :: _ =>
    let day := dayStart t0.starttime
    let colat10 : ℚ := match inv with | some i => (90 - i.latitude) * 10 | none => 0
    let long10 : ℚ := match inv with | some i => i.longitude * 10 | none => 0
    (List.range 24).flatMap fun hour =>
      imfHourHeader t0.station day colat10 long10 hour ::
        ((List.range 60).flatMap fun minute =>
          [imfMinuteRec ost day (hour * 60 + minute),
           if minute % 2 = 1 then "\n" else "  "])

/-- `imfv122._write_body`: trims/pads the ordered stream to the calendar
day of the first trace (1440 minute samples for 60-second data) and emits
the 24 hour blocks. -/
def imfBody (ost : Stream') (inv : Option Inventory) : Except String String :=
  match ost with
  | [] => .error emptyStreamMsg
  | t0 :: _ =>
    let n := ((86400000 - t0.delta).ediv t0.delta + 1).toNat
    if n ≠ 1440 then .error fullDayMsg
    else .ok (String.join (imfBodyChunks ost inv))

/-- `imfv122.write` through an in-memory sink. -/
def imfv122Write (s : Stream') (inv : Option Inventory) :
    String × Option String :=
  if ¬ isCommonTraces s then ("", some commonMsg)
  else
    match orderStream s COMPONENTS with
    | .error e => ("", some e)
    | .ok ost =>
      if (ost.headD ⟨"", "", "", "", 0, 0, []⟩).delta ≠ 60000 then
        ("", some intervalMsg)
      else
        match imfBody ost inv with
        | .error e => ("", some e)
        | .ok body => (body, none)

end Geomag

namespace Geomag

/-! ### Helper lemmas about `merge(method=1)` -/

/-- `Stream.merge(method=1)` on a two-trace stream whose traces share
their id and arrive in merge-key order reduces to a single
`Trace.__add__`. -/
lemma streamMerge1_pair (t u : Trace) (hk : mergeKeyLt u t = false)
    (hid : traceIdEq t u = true) :
    streamMerge1 [t, u] = [addTracesSameSpan t u] := by
  unfold streamMerge1
  simp [List.enum, sSort, sInsert, hk, groupRuns, groupRunsGo, hid]

/-- The sample-wise combination used by `Trace.__add__` on compatible
arrays: the left sample where present, the right one in its gaps. -/
def fillGaps (a b : List (Option ℚ)) : List (Option ℚ) :=
  (a.zip b).map fun p =>
    match p with
    | (some v, _) => some v
    | (none, w) => w

lemma addTracesSameSpan_data (t u : Trace) :
    (addTracesSameSpan t u).data =
      if dataCompatible t.data u.data then fillGaps t.data u.data
      else t.data := rfl

lemma fillGaps_length (a b : List (Option ℚ)) (h : a.length = b.length) :
    (fillGaps a b).length = a.length := by
  simp [fillGaps, List.length_zip, h]

lemma fillGaps_cons (x y : Option ℚ) (a b : List (Option ℚ)) :
    fillGaps (x :: a) (y :: b) =
      (match x, y with
       | some v, _ => some v
       | none, w => w) :: fillGaps a b := by
  cases x <;> rfl

lemma fillGaps_first (a b : List (Option ℚ)) (h : a.length = b.length) :
    ∀ (i : Nat) (v : ℚ), a.get? i = some (some v) →
      (fillGaps a b).get? i = some (some v) := by
  induction a generalizing b with
  | nil => intro i v hv; simp at hv
  | cons x a' ih =>
    intro i v hv
    cases b with
    | nil => simp at h
    | cons y b' =>
      have h' : a'.length = b'.length := by simpa using h
      cases i with
      | zero =>
        rw [List.get?_cons_zero] at hv
        rw [fillGaps_cons, List.get?_cons_zero]
        rw [Option.some_inj] at hv
        subst hv
        rfl
      | succ j =>
        rw [List.get?_cons_succ] at hv
        rw [fillGaps_cons, List.get?_cons_succ]
        exact ih b' h' j v hv

lemma fillGaps_gap (a b : List (Option ℚ)) (h : a.length = b.length) :
    ∀ i : Nat, a.get? i = some none →
      (fillGaps a b).get? i = b.get? i := by
  induction a generalizing b with
  | nil => intro i hv; simp at hv
  | cons x a' ih =>
    intro i hv
    cases b with
    | nil => simp at h
    | cons y b' =>
      have h' : a'.length = b'.length := by simpa using h
      cases i with
      | zero =>
        rw [List.get?_cons_zero] at hv
        rw [Option.some_inj] at hv
        subst hv
        rfl
      | succ j =>
        rw [List.get?_cons_succ] at hv
        rw [fillGaps_cons, List.get?_cons_succ, List.get?_cons_succ]
        exact ih b' h' j hv

/-! ### Claim fixtures: the merge-by-location trace shapes of
`tests/test_stream.py` (station OTT, minute channel `UFX`, start time
`t0 = 0`, interval 60 s), with the sample arrays left free. -/

/-- Component-X trace at location `R1`. -/
def mkTraceR1 (d : List (Option ℚ)) : Trace := ⟨"", "OTT", "R1", "UFX", 60000, 0, d⟩

/-- Component-X trace at location `R2`. -/
def mkTraceR2 (d : List (Option ℚ)) : Trace := ⟨"", "OTT", "R2", "UFX", 60000, 0, d⟩

/-- Component-X trace at an unlisted location `R3`. -/
def mkTraceR3 (d : List (Option ℚ)) : Trace := ⟨"", "OTT", "R3", "UFX", 60000, 0, d⟩

/-- Component-Y trace at location `R1` (same station). -/
def mkTraceY (d : List (Option ℚ)) : Trace := ⟨"", "OTT", "R1", "UFY", 60000, 0, d⟩

lemma mergeByLocation_R1R2 (d1 d2 : List (Option ℚ))
    (hlen : d1.length = d2.length) :
    mergeByLocation [mkTraceR1 d1, mkTraceR2 d2] none "" =
      [addTracesSameSpan { mkTraceR1 d1 with location := "" }
        { mkTraceR2 d2 with location := "" }] := by
  have h1 : mergeByLocation [mkTraceR1 d1, mkTraceR2 d2] none "" =
      streamMerge1 [{ mkTraceR1 d1 with location := "" },
        { mkTraceR2 d2 with location := "" }] := by
    unfold mergeByLocation
    simp +decide [sSort, sInsert, mkTraceR1, mkTraceR2]
  rw [h1]
  apply streamMerge1_pair
  · unfold mergeKeyLt
    simp +decide [mkTraceR1, mkTraceR2, Trace.endtime, hlen]
  · rfl

lemma mergeByLocation_order_R2R1 (d1 d2 d3 : List (Option ℚ))
    (hlen : d1.length = d2.length) :
    mergeByLocation [mkTraceR1 d1, mkTraceR2 d2, mkTraceR3 d3]
        (some ["R2", "R1"]) "" =
      [addTracesSameSpan { mkTraceR2 d2 with location := "" }
        { mkTraceR1 d1 with location := "" }] := by
  have h1 : mergeByLocation [mkTraceR1 d1, mkTraceR2 d2, mkTraceR3 d3]
        (some ["R2", "R1"]) "" =
      streamMerge1 [{ mkTraceR2 d2 with location := "" },
        { mkTraceR1 d1 with location := "" }] := by
    unfold mergeByLocation
    simp +decide [renameByOrder, rankLocation, natZeroPad, natRepr, natDigits,
      natDigitsAux, digitChar, padLeft, sSort, sInsert, mkTraceR1, mkTraceR2,
      mkTraceR3]
  rw [h1]
  apply streamMerge1_pair
  · unfold mergeKeyLt
    simp +decide [mkTraceR1, mkTraceR2, Trace.endtime, hlen]
  · rfl

end Geomag


namespace Geomag

/-! ### Claims C1, C2, C9: `merge_by_location` precedence -/

/-- C1 (counterexample): merging component-X traces `R1 = [1,2,3]` and
`R2 = [1,2,4]` (same start `t0 = 0`, same length, interval 60 s) without
an explicit order yields 3, not 4, at `t0 + 2*interval`: the claim's
"higher location code wins" direction is inverted.  This is exactly what
`tests/test_stream.py::test_merge_by_location` asserts. -/
theorem merge_default_order_cex :
    (mergeByLocation
        [mkTraceR1 [some 1, some 2, some 3], mkTraceR2 [some 1, some 2, some 4]]
        none "").map (fun tr => tr.sampleAt (0 + 2 * 60000)) = [some 3] ∧
      some (3 : ℚ) ≠ some 4 := by decide

/-- C1 (amended): merging two same-length, same-start traces of one
component at locations `R1` and `R2` without an explicit order sorts them
by location code ascending, and the LOWEST location code wins wherever it
has data; the higher code only fills the lower one's masked gaps (when
the overlapping unmasked samples of the two traces agree).  The merged
stream is a single trace whose location code is erased. -/
theorem merge_default_lowest_location_wins (d1 d2 : List (Option ℚ))
    (hlen : d1.length = d2.length) :
    ∃ m : Trace,
      mergeByLocation [mkTraceR1 d1, mkTraceR2 d2] none "" = [m] ∧
      m.location = "" ∧ m.data.length = d1.length ∧
      (∀ (i : Nat) (v : ℚ), d1.get? i = some (some v) →
        m.data.get? i = some (some v)) ∧
      (dataCompatible d1 d2 = true →
        ∀ i : Nat, d1.get? i = some none → m.data.get? i = d2.get? i) := by
  refine ⟨_, mergeByLocation_R1R2 d1 d2 hlen, rfl, ?_, ?_, ?_⟩ <;>
    rw [show (addTracesSameSpan { mkTraceR1 d1 with location := "" }
      { mkTraceR2 d2 with location := "" }).data =
      (if dataCompatible d1 d2 = true then fillGaps d1 d2 else d1) from rfl]
  · split
    · exact fillGaps_length d1 d2 hlen
    · rfl
  · intro i v hv
    split
    · exact fillGaps_first d1 d2 hlen i v hv
    · exact hv
  · intro hc i hv
    rw [if_pos hc]
    exact fillGaps_gap d1 d2 hlen i hv

/-- Witness for C1's amended theorem at the repository's test data. -/
theorem merge_default_lowest_location_wins_witness :
    ([some 1, some 2, some 3] : List (Option ℚ)).length =
      ([some 1, some 2, some 4] : List (Option ℚ)).length ∧
    (∃ m : Trace,
      mergeByLocation
          [mkTraceR1 [some 1, some 2, some 3], mkTraceR2 [some 1, some 2, some 4]]
          none "" = [m] ∧
      m.location = "" ∧
      m.data.length = ([some 1, some 2, some 3] : List (Option ℚ)).length ∧
      (∀ (i : Nat) (v : ℚ),
        ([some 1, some 2, some 3] : List (Option ℚ)).get? i = some (some v) →
        m.data.get? i = some (some v)) ∧
      (dataCompatible [some 1, some 2, some 3] [some 1, some 2, some 4] = true →
        ∀ i : Nat,
          ([some 1, some 2, some 3] : List (Option ℚ)).get? i = some none →
          m.data.get? i =
            ([some 1, some 2, some 4] : List (Option ℚ)).get? i)) :=
  ⟨by decide, merge_default_lowest_location_wins _ _ (by decide)⟩

/-- C2 (counterexample): merging the same two traces with the explicit
order `['R2', 'R1']` yields 4, not 3, at `t0 + 2*interval`: the FIRST
listed location takes the highest precedence, not the last.  This is
exactly what `tests/test_stream.py::test_merge_by_location_order`
asserts. -/
theorem merge_explicit_order_cex :
    (mergeByLocation
        [mkTraceR1 [some 1, some 2, some 3], mkTraceR2 [some 1, some 2, some 4]]
        (some ["R2", "R1"]) "").map (fun tr => tr.sampleAt (0 + 2 * 60000)) =
      [some 4] ∧ some (4 : ℚ) ≠ some 3 := by decide

/-- C2 (amended): with the explicit order `['R2', 'R1']` the FIRST listed
location code takes the highest precedence: it wins wherever it has data
and later-listed codes only fill its masked gaps; location codes not
listed in the order (here `R3`) are excluded from the result. -/
theorem merge_explicit_order_first_listed_wins (d1 d2 d3 : List (Option ℚ))
    (hlen : d1.length = d2.length) :
    ∃ m : Trace,
      mergeByLocation [mkTraceR1 d1, mkTraceR2 d2, mkTraceR3 d3]
          (some ["R2", "R1"]) "" = [m] ∧
      m.location = "" ∧ m.data.length = d2.length ∧
      (∀ (i : Nat) (v : ℚ), d2.get? i = some (some v) →
        m.data.get? i = some (some v)) ∧
      (dataCompatible d2 d1 = true →
        ∀ i : Nat, d2.get? i = some none → m.data.get? i = d1.get? i) := by
  refine ⟨_, mergeByLocation_order_R2R1 d1 d2 d3 hlen, rfl, ?_, ?_, ?_⟩ <;>
    rw [show (addTracesSameSpan { mkTraceR2 d2 with location := "" }
      { mkTraceR1 d1 with location := "" }).data =
      (if dataCompatible d2 d1 = true then fillGaps d2 d1 else d2) from rfl]
  · split
    · exact fillGaps_length d2 d1 hlen.symm
    · rfl
  · intro i v hv
    split
    · exact fillGaps_first d2 d1 hlen.symm i v hv
    · exact hv
  · intro hc i hv
    rw [if_pos hc]
    exact fillGaps_gap d2 d1 hlen.symm i hv

/-- Witness for C2's amended theorem at the repository's test data. -/
theorem merge_explicit_order_first_listed_wins_witness :
    ([some 1, some 2, some 3] : List (Option ℚ)).length =
      ([some 1, some 2, some 4] : List (Option ℚ)).length ∧
    (∃ m : Trace,
      mergeByLocation
          [mkTraceR1 [some 1, some 2, some 3], mkTraceR2 [some 1, some 2, some 4],
            mkTraceR3 [some 7]]
          (some ["R2", "R1"]) "" = [m] ∧
      m.location = "" ∧
      m.data.length = ([some 1, some 2, some 4] : List (Option ℚ)).length ∧
      (∀ (i : Nat) (v : ℚ),
        ([some 1, some 2, some 4] : List (Option ℚ)).get? i = some (some v) →
        m.data.get? i = some (some v)) ∧
      (dataCompatible [some 1, some 2, some 4] [some 1, some 2, some 3] = true →
        ∀ i : Nat,
          ([some 1, some 2, some 4] : List (Option ℚ)).get? i = some none →
          m.data.get? i =
            ([some 1, some 2, some 3] : List (Option ℚ)).get? i)) :=
  ⟨by decide, merge_explicit_order_first_listed_wins _ _ _ (by decide)⟩

/-- C9 (counterexample): `merge_by_location` does NOT leave trace metadata
unchanged: a single-trace stream at location `R1` comes back with the
location code erased to the empty-string placeholder. -/
theorem merge_passthrough_cex :
    (mergeByLocation [mkTraceR1 [some 1]] none "").map Trace.location = [""] ∧
      ("" : String) ≠ "R1" := by decide

/-- C9 (amended): on a stream in which each component appears under
exactly one location code (component X under `R1`, component Y under
`R1`, distinct channels), `merge_by_location()` passes every trace
through with its samples and metadata unchanged EXCEPT the location code,
which is replaced by the `replace_location` placeholder (default the
empty string); a second application of `merge_by_location` is then a
no-op. -/
theorem merge_single_location_passthrough (d1 d2 : List (Option ℚ)) :
    mergeByLocation [mkTraceR1 d1, mkTraceY d2] none "" =
      [{ mkTraceR1 d1 with location := "" },
       { mkTraceY d2 with location := "" }] ∧
    mergeByLocation (mergeByLocation [mkTraceR1 d1, mkTraceY d2] none "")
        none "" =
      mergeByLocation [mkTraceR1 d1, mkTraceY d2] none "" := by
  constructor <;>
  · unfold mergeByLocation streamMerge1
    simp +decide [sSort, sInsert, mkTraceR1, mkTraceY, groupRuns, groupRunsGo,
      traceIdEq, mergeKeyLt, List.enum, strLt, charListLt]

end Geomag

namespace Geomag

/-! ### Claims C4 and C3: IAGA-2002 / internet body rendering -/

/-- The single-component fixture of `tests/test_formats.py::test_data`:
component X, samples `[1, 2, 3]`, start 2019-01-02T00:00:00Z, interval
60 s. -/
def singleXTrace : Trace :=
  ⟨"C2", "OTT", "R1", "UFX", 60000, mkTime 2019 1 2 0 0 0,
    [some 1, some 2, some 3]⟩

set_option maxRecDepth 40000 in
/-- C4: IAGA-2002 encoding of the single-X-component stream succeeds (the
three missing components become zero-length placeholders rendered as the
null value) and the text written ends with the exact CRLF-terminated body
row `2019-01-02 00:02:00.000 002         3.00  99999.00  99999.00  99999.00`,
so that row is the last data row of the file. -/
theorem iaga2002_end_to_end_literal :
    (iaga2002Write [singleXTrace] none none).2 = none ∧
    strEndsWith (iaga2002Write [singleXTrace] none none).1
      "2019-01-02 00:02:00.000 002         3.00  99999.00  99999.00  99999.00\r\n"
      = true := by decide

/-- A fixture whose component-X trace holds the sample value `0.0` at the
day start. -/
def zeroXTrace : Trace :=
  ⟨"C2", "OTT", "R1", "UFX", 60000, mkTime 2019 1 2 0 0 0, [some 0, some 1]⟩

set_option maxRecDepth 40000 in
/-- C3 (counterexample): the IAGA-2002 body prints the null sentinel for
a sample that is present and far below the sentinel: the value `0.0` is
falsy in Python (`if value and value < NULL_VALUE`), so its row renders
`99999.00` even though the sample is neither missing nor `≥ 99999.00`. -/
theorem null_rendering_cex :
    charsContain
      ("2019-01-02 00:00:00.000 002     99999.00  99999.00  99999.00  99999.00\r\n").data
      (iaga2002Write [zeroXTrace] none none).1.data = true ∧
    zeroXTrace.sampleAt (mkTime 2019 1 2 0 0 0) = some 0 ∧
    ¬ ((0 : ℚ) ≥ iagaNull) := by decide

/-- C3 (amended): in the IAGA-2002 and internet bodies, the rendered
value of a sample slot equals the null sentinel if and only if the sample
is missing (masked or uncovered), at or above the sentinel, OR exactly
zero (Python float truthiness); every other sample is printed as itself.
The final two conjuncts record that both body lines are exactly this
selection (`truthyRender`) composed with the `%9.2f` / `%.2f`
formatting. -/
theorem null_rendering_amended (x : Option ℚ) (nullValue : ℚ)
    (ost : Stream') (station : String) (sr : ℚ) (start delta : Int)
    (off : Nat) :
    (truthyRender nullValue x = nullValue ↔
      x = none ∨ ∃ v : ℚ, x = some v ∧ (v = 0 ∨ nullValue ≤ v)) ∧
    (∀ v : ℚ, x = some v → v ≠ 0 → v < nullValue →
      truthyRender nullValue x = v) ∧
    (iagaRow ost start delta off =
      fmtIagaTimestamp (start + (off : Int) * delta) ++ " " ++
      fmtDoy (start + (off : Int) * delta) ++ "    " ++
      fmtF2 9 (truthyRender iagaNull
        (streamSampleAt ost 0 (start + (off : Int) * delta))) ++ " " ++
      fmtF2 9 (truthyRender iagaNull
        (streamSampleAt ost 1 (start + (off : Int) * delta))) ++ " " ++
      fmtF2 9 (truthyRender iagaNull
        (streamSampleAt ost 2 (start + (off : Int) * delta))) ++ " " ++
      fmtF2 9 (truthyRender iagaNull
        (streamSampleAt ost 3 (start + (off : Int) * delta))) ++ "\r\n") ∧
    (internetLine ost station sr delta start off =
      station ++ " " ++ internetTimestamp sr (start + (off : Int) * delta) ++ " " ++
      ratFixed2 (truthyRender iagaNull
        (streamSampleAt ost 0 (start + (off : Int) * delta))) ++ " " ++
      ratFixed2 (truthyRender iagaNull
        (streamSampleAt ost 1 (start + (off : Int) * delta))) ++ " " ++
      ratFixed2 (truthyRender iagaNull
        (streamSampleAt ost 2 (start + (off : Int) * delta))) ++ " " ++
      ratFixed2 (truthyRender iagaNull
        (streamSampleAt ost 3 (start + (off : Int) * delta))) ++ "\n") := by
  refine ⟨?_, ?_, rfl, rfl⟩
  · constructor
    · intro h
      cases x with
      | none => exact Or.inl rfl
      | some v =>
        refine Or.inr ⟨v, rfl, ?_⟩
        by_cases h0 : v = 0
        · exact Or.inl h0
        · by_cases hlt : v < nullValue
          · exfalso
            have : truthyRender nullValue (some v) = v := by
              unfold truthyRender
              simp only [Option.getD_some]
              rw [if_pos ⟨h0, hlt⟩]
            rw [this] at h
            exact absurd h (ne_of_lt hlt)
          · exact Or.inr (le_of_not_lt hlt)
    · intro h
      rcases h with h | ⟨v, hx, hv⟩
      · subst h
        unfold truthyRender
        simp only [Option.getD_none]
        split
        · rfl
        · rfl
      · subst hx
        unfold truthyRender
        simp only [Option.getD_some]
        rw [if_neg]
        rintro ⟨h0, hlt⟩
        rcases hv with h | h
        · exact h0 h
        · exact absurd hlt (not_lt.mpr h)
  · intro v hx h0 hlt
    subst hx
    unfold truthyRender
    simp only [Option.getD_some]
    rw [if_pos ⟨h0, hlt⟩]

/-- Witness for C3's amended theorem: a present zero sample renders as
the sentinel, a present ordinary sample renders as itself. -/
theorem null_rendering_amended_witness :
    truthyRender iagaNull (some 0) = iagaNull ∧
    truthyRender iagaNull (some 5) = 5 :=
  ⟨(null_rendering_amended (some 0) iagaNull [] "" 1 0 0 0).1.mpr
      (Or.inr ⟨0, rfl, Or.inl rfl⟩),
   (null_rendering_amended (some 5) iagaNull [] "" 1 0 0 0).2.1 5 rfl
      (by norm_num) (by norm_num [iagaNull])⟩

end Geomag

namespace Geomag

/-! ### Claim C5: `order_stream` -/

lemma orderStreamAux_ok (s : Stream') (first : Trace) :
    ∀ cs : List String, (∀ c ∈ cs, (selectComponent s c).length ≤ 1) →
      orderStreamAux s first cs = .ok (cs.map fun c =>
        match selectComponent s c with
        | [t] => t
        | _ => synthTrace first c) := by
  intro cs
  induction cs with
  | nil => intro _; rfl
  | cons c cs ih =>
    intro h
    have hcs : ∀ c' ∈ cs, (selectComponent s c').length ≤ 1 :=
      fun c' hc' => h c' (List.mem_cons_of_mem c hc')
    have hc := h c (List.mem_cons_self c cs)
    unfold orderStreamAux
    cases hsel : selectComponent s c with
    | nil =>
      rw [ih hcs]
      simp [hsel, Except.map]
    | cons t rest =>
      cases rest with
      | nil =>
        rw [ih hcs]
        simp [hsel, Except.map]
      | cons t2 r2 =>
        rw [hsel] at hc
        simp at hc

lemma orderStreamAux_err (s : Stream') (first : Trace) :
    ∀ cs : List String, (∃ c ∈ cs, 2 ≤ (selectComponent s c).length) →
      orderStreamAux s first cs = .error ambiguousMsg := by
  intro cs
  induction cs with
  | nil => rintro ⟨c, hc, _⟩; simp at hc
  | cons c cs ih =>
    rintro ⟨c', hc', h2⟩
    unfold orderStreamAux
    cases hsel : selectComponent s c with
    | nil =>
      rcases List.mem_cons.mp hc' with rfl | hmem
      · rw [hsel] at h2; simp at h2
      · rw [ih ⟨c', hmem, h2⟩]; rfl
    | cons t rest =>
      cases rest with
      | nil =>
        rcases List.mem_cons.mp hc' with rfl | hmem
        · rw [hsel] at h2; simp at h2
        · rw [ih ⟨c', hmem, h2⟩]; rfl
      | cons t2 r2 => rfl

/-- C5: on every non-empty stream, `order_stream` with the fixed component
list X, Y, Z, F returns exactly four traces in that order — for a
component with exactly one matching trace, that trace; for a component
with no match, a zero-length trace carrying the first trace's identity
metadata with the channel's last character rewritten to the component —
and fails with the ambiguity error as soon as any component matches more
than one trace. -/
theorem order_stream_spec (s : Stream') (first : Trace) (rest : Stream')
    (hs : s = first :: rest) :
    ((∀ c ∈ COMPONENTS, (selectComponent s c).length ≤ 1) →
      orderStream s COMPONENTS = .ok (COMPONENTS.map fun c =>
        match selectComponent s c with
        | [t] => t
        | _ => synthTrace first c) ∧
      (COMPONENTS.map fun c =>
        match selectComponent s c with
        | [t] => t
        | _ => synthTrace first c).length = 4) ∧
    ((∃ c ∈ COMPONENTS, 2 ≤ (selectComponent s c).length) →
      orderStream s COMPONENTS = .error ambiguousMsg) ∧
    (∀ c : String, (synthTrace first c).data = [] ∧
      (synthTrace first c).channel = first.channel.dropRight 1 ++ c ∧
      (synthTrace first c).network = first.network ∧
      (synthTrace first c).station = first.station ∧
      (synthTrace first c).location = first.location ∧
      (synthTrace first c).delta = first.delta ∧
      (synthTrace first c).starttime = first.starttime) := by
  subst hs
  refine ⟨?_, ?_, ?_⟩
  · intro h
    exact ⟨orderStreamAux_ok (first :: rest) first COMPONENTS h,
      by simp [COMPONENTS]⟩
  · intro h
    exact orderStreamAux_err (first :: rest) first COMPONENTS h
  · intro c
    exact ⟨rfl, rfl, rfl, rfl, rfl, rfl, rfl⟩

/-- Witness for C5 at the single-X-component test stream. -/
theorem order_stream_spec_witness :
    ([singleXTrace] = singleXTrace :: ([] : Stream')) ∧
    (((∀ c ∈ COMPONENTS, (selectComponent [singleXTrace] c).length ≤ 1) →
      orderStream [singleXTrace] COMPONENTS = .ok (COMPONENTS.map fun c =>
        match selectComponent [singleXTrace] c with
        | [t] => t
        | _ => synthTrace singleXTrace c) ∧
      (COMPONENTS.map fun c =>
        match selectComponent [singleXTrace] c with
        | [t] => t
        | _ => synthTrace singleXTrace c).length = 4) ∧
    ((∃ c ∈ COMPONENTS, 2 ≤ (selectComponent [singleXTrace] c).length) →
      orderStream [singleXTrace] COMPONENTS = .error ambiguousMsg) ∧
    (∀ c : String, (synthTrace singleXTrace c).data = [] ∧
      (synthTrace singleXTrace c).channel =
        singleXTrace.channel.dropRight 1 ++ c ∧
      (synthTrace singleXTrace c).network = singleXTrace.network ∧
      (synthTrace singleXTrace c).station = singleXTrace.station ∧
      (synthTrace singleXTrace c).location = singleXTrace.location ∧
      (synthTrace singleXTrace c).delta = singleXTrace.delta ∧
      (synthTrace singleXTrace c).starttime = singleXTrace.starttime)) :=
  ⟨rfl, order_stream_spec [singleXTrace] singleXTrace [] rfl⟩

end Geomag

namespace Geomag

/-! ### Claim C10: the IAGA-2002 header survives a day-range failure -/

/-- C10: IAGA-2002 encoding is not atomic on a day-range error: when the
stream passes the identity check and component ordering but its body
fails the single-day validation, the text already written to the sink is
exactly the header — the 12 labelled lines plus the 2 DECBAS comment
lines, 14 CRLF-terminated lines in all — while the column-header line and
the body rows are never written, and the day-range error is raised. -/
theorem iaga2002_partial_write_on_day_range_error (s ost : Stream')
    (inv : Option Inventory) (src : Option String)
    (hcom : isCommonTraces s = true)
    (hord : orderStream s COMPONENTS = .ok ost)
    (hbody : iagaBody ost = .error dayRangeMsg) :
    iaga2002Write s inv src = (iagaHeaderText ost inv src, some dayRangeMsg) ∧
    iagaHeaderText ost inv src =
      String.intercalate "\r\n" (iagaGetHeaders ost inv src ++ decbasLines) ++
        "\r\n" ∧
    (iagaGetHeaders ost inv src ++ decbasLines).length = 14 := by
  refine ⟨?_, rfl, ?_⟩
  · unfold iaga2002Write
    rw [if_neg (by simp [hcom]), hord]
    dsimp only
    rw [hbody]
  · simp [iagaGetHeaders, decbasLines]

/-- The two-day fixture of
`tests/test_formats.py::test_data_out_of_range`: component X on
2019-01-02 and component Y on 2019-01-03. -/
def outOfRangeStream : Stream' :=
  [⟨"C2", "OTT", "R1", "UFX", 60000, mkTime 2019 1 2 0 0 0,
     [some 1, some 2, some 3]⟩,
   ⟨"C2", "OTT", "R1", "UFY", 60000, mkTime 2019 1 3 0 0 0,
     [some 1, some 2, some 3]⟩]

/-- The ordered stream `order_stream` produces for `outOfRangeStream`:
the X and Y traces followed by synthesized empty Z and F placeholders. -/
def outOfRangeOst : Stream' :=
  [⟨"C2", "OTT", "R1", "UFX", 60000, mkTime 2019 1 2 0 0 0,
     [some 1, some 2, some 3]⟩,
   ⟨"C2", "OTT", "R1", "UFY", 60000, mkTime 2019 1 3 0 0 0,
     [some 1, some 2, some 3]⟩,
   ⟨"C2", "OTT", "R1", "UFZ", 60000, mkTime 2019 1 2 0 0 0, []⟩,
   ⟨"C2", "OTT", "R1", "UFF", 60000, mkTime 2019 1 2 0 0 0, []⟩]

set_option maxRecDepth 40000 in
/-- Witness for C10 at the repository's out-of-range test fixture. -/
theorem iaga2002_partial_write_on_day_range_error_witness :
    (isCommonTraces outOfRangeStream = true ∧
     orderStream outOfRangeStream COMPONENTS = .ok outOfRangeOst ∧
     iagaBody outOfRangeOst = .error dayRangeMsg) ∧
    (iaga2002Write outOfRangeStream none none =
      (iagaHeaderText outOfRangeOst none none, some dayRangeMsg) ∧
     iagaHeaderText outOfRangeOst none none =
      String.intercalate "\r\n"
        (iagaGetHeaders outOfRangeOst none none ++ decbasLines) ++ "\r\n" ∧
     (iagaGetHeaders outOfRangeOst none none ++ decbasLines).length = 14) :=
  ⟨⟨by decide, by rfl, by rfl⟩,
   iaga2002_partial_write_on_day_range_error outOfRangeStream outOfRangeOst
     none none (by decide) (by rfl) (by rfl)⟩

end Geomag

namespace Geomag

/-! ### Claim C8: internet-format fractional seconds -/

lemma str_data_append (a b : String) : (a ++ b).data = a.data ++ b.data := rfl

lemma digitChar_ne_dot (k : Nat) (hk : k < 10) : digitChar k ≠ '.' := by
  interval_cases k <;> decide

lemma natDigitsAux_ne_dot :
    ∀ fuel n : Nat, ∀ c ∈ natDigitsAux fuel n, c ≠ '.' := by
  intro fuel
  induction fuel with
  | zero => intro n c hc; simp [natDigitsAux] at hc
  | succ f ih =>
    intro n c hc
    unfold natDigitsAux at hc
    split at hc
    · next h =>
      simp at hc
      subst hc
      exact digitChar_ne_dot n h
    · rcases List.mem_append.mp hc with h1 | h2
      · exact ih _ c h1
      · simp at h2
        subst h2
        exact digitChar_ne_dot _ (Nat.mod_lt _ (by norm_num))

lemma natRepr_ne_dot (n : Nat) : ∀ c ∈ (natRepr n).data, c ≠ '.' :=
  fun c hc => natDigitsAux_ne_dot (n + 1) n c hc

lemma natZeroPad_ne_dot (w n : Nat) : ∀ c ∈ (natZeroPad w n).data, c ≠ '.' := by
  intro c hc
  unfold natZeroPad padLeft at hc
  rw [str_data_append] at hc
  rcases List.mem_append.mp hc with h1 | h2
  · have := List.eq_of_mem_replicate h1
    subst this
    decide
  · exact natRepr_ne_dot n c h2

lemma intZeroPad_ne_dot (w : Nat) (i : Int) :
    ∀ c ∈ (intZeroPad w i).data, c ≠ '.' := by
  intro c hc
  unfold intZeroPad at hc
  split at hc
  · rw [str_data_append] at hc
    rcases List.mem_append.mp hc with h1 | h2
    · simp at h1
      subst h1
      decide
    · exact natZeroPad_ne_dot _ _ c h2
  · exact natZeroPad_ne_dot _ _ c hc

lemma no_dot_append (a b : String) (ha : '.' ∉ a.data)
    (hb : '.' ∉ b.data) : '.' ∉ (a ++ b).data := by
  rw [str_data_append]
  intro h
  rcases List.mem_append.mp h with h1 | h2
  · exact ha h1
  · exact hb h2

lemma intZeroPad_no_dot (w : Nat) (i : Int) : '.' ∉ (intZeroPad w i).data :=
  fun h => intZeroPad_ne_dot w i '.' h rfl

lemma fmtHMS_no_dot (t : Int) : '.' ∉ (fmtHMS t).data := by
  unfold fmtHMS
  exact no_dot_append _ _
    (no_dot_append _ _
      (no_dot_append _ _
        (no_dot_append _ _ (intZeroPad_no_dot _ _) (by decide))
        (intZeroPad_no_dot _ _))
      (by decide))
    (intZeroPad_no_dot _ _)

lemma internetTsBase_no_dot (t : Int) : '.' ∉ (internetTsBase t).data := by
  unfold internetTsBase fmtDoy
  exact no_dot_append _ _
    (no_dot_append _ _
      (no_dot_append _ _
        (no_dot_append _ _ (intZeroPad_no_dot _ _) (by decide))
        (intZeroPad_no_dot _ _))
      (by decide))
    (fmtHMS_no_dot t)

lemma fmtMillis_dot (t : Int) : '.' ∈ (fmtMillis t).data := by
  unfold fmtMillis
  rw [str_data_append]
  exact List.mem_append_left _ (by decide)

/-- C8 (amended): an emitted internet-format timestamp includes the
millisecond fraction `.mmm` if and only if the sampling interval is at
most 1 second (sampling rate at least 1 Hz) — so at an interval of
exactly 1 second the fraction IS printed, contrary to the claim's
strictly-below-1-second condition.  The second conjunct ties the
condition to the trace field the body reads
(`sampling_rate = 1/delta`). -/
theorem internet_fraction_iff (delta t : Int) (hpos : 0 < delta) :
    ('.' ∈ (internetTimestamp ((1000 : ℚ) / (delta : ℚ)) t).data ↔
      delta ≤ 1000) ∧
    (∀ tr : Trace, tr.samplingRate = (1000 : ℚ) / ((tr.delta : Int) : ℚ)) := by
  refine ⟨?_, fun tr => rfl⟩
  have hd : (0 : ℚ) < (delta : ℚ) := by exact_mod_cast hpos
  have hcond : ((1000 : ℚ) / (delta : ℚ) < 1) ↔ (1000 : Int) < delta := by
    rw [div_lt_one hd]
    exact_mod_cast Iff.rfl
  unfold internetTimestamp
  by_cases h : (1000 : ℚ) / (delta : ℚ) < 1
  · rw [if_pos h]
    have h1000 : ¬ delta ≤ 1000 := not_le.mpr (hcond.mp h)
    simp only [h1000, iff_false]
    exact internetTsBase_no_dot t
  · rw [if_neg h]
    have h1000 : delta ≤ 1000 := not_lt.mp (fun hlt => h (hcond.mpr hlt))
    simp only [h1000, iff_true]
    rw [str_data_append]
    exact List.mem_append_right _ (fmtMillis_dot t)

/-- Witness for C8's amended theorem at minute data (interval 60 s): no
fraction is printed. -/
theorem internet_fraction_iff_witness :
    ((0 : Int) < 60000) ∧
    (('.' ∈ (internetTimestamp ((1000 : ℚ) / ((60000 : Int) : ℚ)) 0).data ↔
      (60000 : Int) ≤ 1000) ∧
    (∀ tr : Trace, tr.samplingRate = (1000 : ℚ) / ((tr.delta : Int) : ℚ))) :=
  ⟨by decide, internet_fraction_iff 60000 0 (by decide)⟩

/-- A 1-second-interval fixture (`L` rate code): one X sample at the
epoch. -/
def oneSecTrace : Trace := ⟨"", "OTT", "R1", "LFX", 1000, 0, [some 1]⟩

/-- C8 (counterexample): at a sampling interval of exactly 1 second the
emitted internet-format line DOES carry the `.mmm` fraction
(`...00:00:00.000...`), although the interval is not strictly less than
1 second. -/
theorem internet_fraction_cex :
    (internetWrite [oneSecTrace]).1 =
      "OTT 1970 001:00:00:00.000 1.00 99999.00 99999.00 99999.00\n" ∧
    ¬ (oneSecTrace.delta < 1000) := by
  constructor
  · have hline : internetWrite [oneSecTrace] = (internetBody
        [oneSecTrace, synthTrace oneSecTrace "Y", synthTrace oneSecTrace "Z",
         synthTrace oneSecTrace "F"], none) := by
      unfold internetWrite
      simp +decide [isCommonTraces, orderStream, orderStreamAux,
        selectComponent, strEndsWith, strToUpper, charUpper, COMPONENTS,
        oneSecTrace, synthTrace, Except.map]
    rw [hline]
    unfold internetBody
    norm_num [internetLine, internetTimestamp, Trace.samplingRate, oneSecTrace,
      synthTrace, Trace.endtime, List.range_succ]
    decide
  · decide

end Geomag

namespace Geomag

/-! ### Claim C7: IMFv1.22 body layout -/

lemma pairLoopAux (f : Nat → String) (base : Nat) : ∀ n : Nat,
    (List.range (2 * n)).flatMap
      (fun m => [f (base + m), if m % 2 = 1 then "\n" else "  "]) =
    (List.range n).flatMap
      (fun p => [f (base + 2 * p), "  ", f (base + 2 * p + 1), "\n"]) := by
  intro n
  induction n with
  | zero => rfl
  | succ k ih =>
    have h2 : 2 * (k + 1) = (2 * k + 1) + 1 := by ring
    rw [h2, List.range_succ, List.range_succ, List.range_succ]
    have heven : (2 * k) % 2 = 0 := by omega
    have hodd : (2 * k + 1) % 2 = 1 := by omega
    simp only [List.flatMap_append, ih, List.flatMap_cons, List.flatMap_nil,
      heven, hodd]
    simp [Nat.add_assoc]

/-- The 60-iteration minute loop with alternating `"  "`/`"\n"`
separators is 30 paired lines. -/
lemma pairLoop60 (f : Nat → String) (base : Nat) :
    (List.range 60).flatMap
      (fun m => [f (base + m), if m % 2 = 1 then "\n" else "  "]) =
    (List.range 30).flatMap
      (fun p => [f (base + 2 * p), "  ", f (base + 2 * p + 1), "\n"]) := by
  have h := pairLoopAux f base 30
  norm_num at h
  exact h

/-- C7 (amended): for minute-sampled data the IMFv1.22 body is accepted
(1440-sample day) and consists of 24 hour blocks, each an hour-header
line followed by THIRTY newline-terminated lines, each line holding a
PAIR of adjacent minute records separated by two spaces; each minute
record is four fields of `value * 10` truncated to integer, formatted
`"%7d %7d %7d %6d"`, with missing or `≥`-sentinel samples rendered as the
sentinel `99999.99` scaled by 10. -/
theorem imfv122_body_structure (ost : Stream') (t0 : Trace) (rest : Stream')
    (inv : Option Inventory) (host : ost = t0 :: rest)
    (hd : t0.delta = 60000) :
    imfBody ost inv = .ok (String.join (imfBodyChunks ost inv)) ∧
    imfBodyChunks ost inv = (List.range 24).flatMap (fun hour =>
      imfHourHeader t0.station (dayStart t0.starttime)
        (match inv with | some i => (90 - i.latitude) * 10 | none => 0)
        (match inv with | some i => i.longitude * 10 | none => 0) hour ::
        (List.range 30).flatMap fun p =>
          [imfMinuteRec ost (dayStart t0.starttime) (hour * 60 + 2 * p), "  ",
           imfMinuteRec ost (dayStart t0.starttime) (hour * 60 + 2 * p + 1),
           "\n"]) ∧
    (∀ idx : Nat, imfMinuteRec ost (dayStart t0.starttime) idx =
      intSpacePad 7 (ratTimes10Trunc (imfRender (streamSampleAt ost 0
        (dayStart t0.starttime + (idx : Int) * 60000)))) ++ " " ++
      intSpacePad 7 (ratTimes10Trunc (imfRender (streamSampleAt ost 1
        (dayStart t0.starttime + (idx : Int) * 60000)))) ++ " " ++
      intSpacePad 7 (ratTimes10Trunc (imfRender (streamSampleAt ost 2
        (dayStart t0.starttime + (idx : Int) * 60000)))) ++ " " ++
      intSpacePad 6 (ratTimes10Trunc (imfRender (streamSampleAt ost 3
        (dayStart t0.starttime + (idx : Int) * 60000))))) := by
  subst host
  refine ⟨?_, ?_, fun idx => rfl⟩
  · unfold imfBody
    dsimp only
    rw [hd]
    norm_num
    intro h
    exact absurd (by decide) h
  · unfold imfBodyChunks
    simp only [pairLoop60]

/-- The valid one-day fixture used to exhibit C7's line count: four
empty component traces of 2019-01-02 (every sample renders as the
sentinel). -/
def imfOstCex : Stream' :=
  [⟨"C2", "OTT", "R1", "UFX", 60000, mkTime 2019 1 2 0 0 0, []⟩,
   ⟨"C2", "OTT", "R1", "UFY", 60000, mkTime 2019 1 2 0 0 0, []⟩,
   ⟨"C2", "OTT", "R1", "UFZ", 60000, mkTime 2019 1 2 0 0 0, []⟩,
   ⟨"C2", "OTT", "R1", "UFF", 60000, mkTime 2019 1 2 0 0 0, []⟩]

set_option maxRecDepth 80000 in
set_option maxHeartbeats 1000000 in
/-- C7 (counterexample): an hour block of the IMFv1.22 body is written
as 121 chunks — the hour-header line, then 60 minute records interleaved
with their 60 separators; among the first hour block's chunks exactly 30
are the newline terminator, so the block holds 30 record lines, not the
60 the claim's "60 lines of paired minute records" per hour would
require. -/
theorem imfv122_line_count_cex :
    ((imfBodyChunks imfOstCex none).take 121).count "\n" = 30 ∧
    ((imfBodyChunks imfOstCex none).take 121).length = 121 ∧
    (30 : Nat) ≠ 60 := by decide

/-- Witness for C7's amended theorem at the valid one-day fixture. -/
theorem imfv122_body_structure_witness :
    (imfOstCex = (⟨"C2", "OTT", "R1", "UFX", 60000, mkTime 2019 1 2 0 0 0,
        []⟩ : Trace) :: imfOstCex.drop 1 ∧
      ((⟨"C2", "OTT", "R1", "UFX", 60000, mkTime 2019 1 2 0 0 0,
        []⟩ : Trace)).delta = 60000) ∧
    imfBody imfOstCex none = .ok (String.join (imfBodyChunks imfOstCex none)) :=
  ⟨⟨rfl, rfl⟩,
   (imfv122_body_structure imfOstCex
      ⟨"C2", "OTT", "R1", "UFX", 60000, mkTime 2019 1 2 0 0 0, []⟩
      (imfOstCex.drop 1) none rfl rfl).1⟩

end Geomag

namespace Geomag

/-! ### Claim C6: the IAGA-2002 day-range validation -/

lemma foldl_max_ge_iff (l : Stream') (init x : Int) :
    x ≤ l.foldl (fun m tr => max m tr.endtime) init ↔
      x ≤ init ∨ ∃ tr ∈ l, x ≤ tr.endtime := by
  induction l generalizing init with
  | nil => simp
  | cons a l ih =>
    rw [List.foldl_cons, ih]
    simp only [le_max_iff, List.mem_cons]
    constructor
    · rintro ((h | h) | ⟨tr, htr, h⟩)
      · exact Or.inl h
      · exact Or.inr ⟨a, Or.inl rfl, h⟩
      · exact Or.inr ⟨tr, Or.inr htr, h⟩
    · rintro (h | ⟨tr, (rfl | htr), h⟩)
      · exact Or.inl (Or.inl h)
      · exact Or.inl (Or.inr h)
      · exact Or.inr ⟨tr, htr, h⟩

lemma dayStart_le (t : Int) : dayStart t ≤ t := by
  unfold dayStart tsDay
  rw [Int.fdiv_eq_ediv _ (by norm_num)]
  have h1 := Int.ediv_add_emod t 86400000
  have h2 := Int.emod_nonneg t (show (86400000 : Int) ≠ 0 by norm_num)
  omega

lemma lt_dayStart_add (t : Int) : t < dayStart t + 86400000 := by
  unfold dayStart tsDay
  rw [Int.fdiv_eq_ediv _ (by norm_num)]
  have h1 := Int.ediv_add_emod t 86400000
  have h2 := Int.emod_lt_of_pos t (show (0 : Int) < 86400000 by norm_num)
  omega

lemma select_sub (s : Stream') (c : String) :
    ∀ t ∈ selectComponent s c, t ∈ s :=
  fun _ ht => List.mem_of_mem_filter ht

lemma select_singleton (s : Stream') (c : String) (t : Trace)
    (hlen : (selectComponent s c).length ≤ 1)
    (hmem : t ∈ selectComponent s c) : selectComponent s c = [t] := by
  cases hsel : selectComponent s c with
  | nil => rw [hsel] at hmem; simp at hmem
  | cons a rest =>
    cases rest with
    | nil =>
      rw [hsel] at hmem
      simp at hmem
      rw [hmem]
    | cons b r2 => rw [hsel] at hlen; simp at hlen

/-- The per-component selection of `order_stream`. -/
def pickComponent (s : Stream') (first : Trace) (c : String) : Trace :=
  match selectComponent s c with
  | [t] => t
  | _ => synthTrace first c

lemma pickComponent_cases (s : Stream') (first : Trace) (c : String) :
    pickComponent s first c ∈ selectComponent s c ∨
      pickComponent s first c = synthTrace first c := by
  unfold pickComponent
  cases hsel : selectComponent s c with
  | nil => exact Or.inr rfl
  | cons t rest =>
    cases rest with
    | nil =>
      refine Or.inl ?_
      show t ∈ [t]
      exact List.mem_cons_self t []
    | cons b r2 => exact Or.inr rfl

lemma mem_pick (s : Stream') (first : Trace) (c : String) (t : Trace)
    (hlen : (selectComponent s c).length ≤ 1)
    (hmem : t ∈ selectComponent s c) : pickComponent s first c = t := by
  unfold pickComponent
  rw [select_singleton s c t hlen hmem]

lemma synthTrace_endtime (first : Trace) (c : String) :
    (synthTrace first c).endtime = first.starttime - first.delta := by
  unfold synthTrace Trace.endtime
  simp
  ring

end Geomag

namespace Geomag

set_option maxHeartbeats 1000000 in
/-- C6: for a stream of XYZF-component traces (unique per component,
common identity, the first trace carrying component X, positive
interval), IAGA-2002 encoding raises the day-range error if and only if
some trace's data extends to or beyond the start of the calendar day
after the one containing the first trace's start time; streams confined
to that calendar day do not raise it. -/
theorem iaga2002_day_range_iff (t0 : Trace) (rest : Stream')
    (inv : Option Inventory) (src : Option String)
    (hcom : isCommonTraces (t0 :: rest) = true)
    (huniq : ∀ c ∈ COMPONENTS, (selectComponent (t0 :: rest) c).length ≤ 1)
    (hall : ∀ tr ∈ t0 :: rest, ∃ c ∈ COMPONENTS,
      strEndsWith (strToUpper tr.channel) (strToUpper c) = true)
    (hfirst : strEndsWith (strToUpper t0.channel) (strToUpper "X") = true)
    (hpos : 0 < t0.delta) :
    (iaga2002Write (t0 :: rest) inv src).2 = some dayRangeMsg ↔
      ∃ tr ∈ t0 :: rest,
        dayStart t0.starttime + 86400000 ≤ tr.endtime := by
  have hord : orderStream (t0 :: rest) COMPONENTS =
      .ok (COMPONENTS.map (pickComponent (t0 :: rest) t0)) :=
    orderStreamAux_ok (t0 :: rest) t0 COMPONENTS huniq
  have hmap : COMPONENTS.map (pickComponent (t0 :: rest) t0) =
      [pickComponent (t0 :: rest) t0 "X", pickComponent (t0 :: rest) t0 "Y",
       pickComponent (t0 :: rest) t0 "Z", pickComponent (t0 :: rest) t0 "F"] :=
    rfl
  have hmem_ost : ∀ c : String,
      pickComponent (t0 :: rest) t0 c ∈ t0 :: rest ∨
      (pickComponent (t0 :: rest) t0 c).endtime =
        t0.starttime - t0.delta := by
    intro c
    rcases pickComponent_cases (t0 :: rest) t0 c with h | h
    · exact Or.inl (select_sub _ c _ h)
    · rw [h, synthTrace_endtime]
      exact Or.inr rfl
  have hs_ost : ∀ tr ∈ t0 :: rest,
      tr ∈ [pickComponent (t0 :: rest) t0 "X", pickComponent (t0 :: rest) t0 "Y",
            pickComponent (t0 :: rest) t0 "Z", pickComponent (t0 :: rest) t0 "F"] := by
    intro tr htr
    rcases hall tr htr with ⟨c, hcC, hend⟩
    have hsel : tr ∈ selectComponent (t0 :: rest) c :=
      List.mem_filter.mpr ⟨htr, hend⟩
    rw [← hmap]
    exact List.mem_map.mpr ⟨c, hcC, mem_pick _ t0 c tr (huniq c hcC) hsel⟩
  have hpickX : pickComponent (t0 :: rest) t0 "X" = t0 :=
    mem_pick _ t0 "X" t0 (huniq "X" (by simp [COMPONENTS]))
      (List.mem_filter.mpr ⟨List.mem_cons_self t0 rest, hfirst⟩)
  have hheadday : dayStart ((pickComponent (t0 :: rest) t0 "X").starttime) =
      dayStart t0.starttime := by rw [hpickX]
  have hsynth_lt : t0.starttime - t0.delta <
      dayStart t0.starttime + 86400000 := by
    have h2 := lt_dayStart_add t0.starttime
    omega
  have hhead_lt : ∀ tr ∈ t0 :: rest, ¬ (dayStart t0.starttime + 86400000 ≤
      t0.starttime - t0.delta) := by
    intro tr _
    omega
  unfold iaga2002Write
  rw [if_neg (by simp [hcom]), hord]
  dsimp only
  unfold iagaBody
  rw [hmap]
  dsimp only
  rw [hheadday]
  set thr := dayStart t0.starttime + 86400000 with hthr
  set L := [pickComponent (t0 :: rest) t0 "X", pickComponent (t0 :: rest) t0 "Y",
            pickComponent (t0 :: rest) t0 "Z", pickComponent (t0 :: rest) t0 "F"]
    with hL
  by_cases hcond : L.foldl (fun m tr => max m tr.endtime)
      (pickComponent (t0 :: rest) t0 "X").endtime ≥ thr
  · rw [if_pos hcond]
    dsimp only
    constructor
    · intro _
      rcases (foldl_max_ge_iff L _ thr).mp hcond with hinit | ⟨y, hyL, hy⟩
      · rcases hmem_ost "X" with hmem | hsynth
        · exact ⟨_, hmem, hinit⟩
        · exfalso
          rw [hsynth] at hinit
          omega
      · have : y ∈ t0 :: rest ∨ y.endtime = t0.starttime - t0.delta := by
          rw [hL] at hyL
          simp only [List.mem_cons, List.mem_singleton] at hyL
          rcases hyL with rfl | rfl | rfl | (rfl | h)
          · exact hmem_ost "X"
          · exact hmem_ost "Y"
          · exact hmem_ost "Z"
          · exact hmem_ost "F"
          · simp at h
        rcases this with hmem | hsynth
        · exact ⟨y, hmem, hy⟩
        · exfalso
          rw [hsynth] at hy
          omega
    · intro _
      rfl
  · rw [if_neg hcond]
    dsimp only
    constructor
    · intro h
      simp at h
    · rintro ⟨tr, htr, hle⟩
      exfalso
      apply hcond
      refine (foldl_max_ge_iff L _ thr).mpr (Or.inr ⟨tr, ?_, hle⟩)
      rw [hL]
      exact hs_ost tr htr

end Geomag

namespace Geomag

/-- The component-X trace of the out-of-range fixture (2019-01-02). -/
def oorX : Trace :=
  ⟨"C2", "OTT", "R1", "UFX", 60000, mkTime 2019 1 2 0 0 0,
    [some 1, some 2, some 3]⟩

/-- The component-Y trace of the out-of-range fixture (2019-01-03). -/
def oorY : Trace :=
  ⟨"C2", "OTT", "R1", "UFY", 60000, mkTime 2019 1 3 0 0 0,
    [some 1, some 2, some 3]⟩

set_option maxRecDepth 40000 in
/-- Witness for C6 at the repository's out-of-range test fixture: the Y
trace lies on the following calendar day, and the encoder raises the
day-range error. -/
theorem iaga2002_day_range_iff_witness :
    (isCommonTraces (oorX :: [oorY]) = true ∧
     (∀ c ∈ COMPONENTS, (selectComponent (oorX :: [oorY]) c).length ≤ 1) ∧
     (∀ tr ∈ oorX :: [oorY], ∃ c ∈ COMPONENTS,
       strEndsWith (strToUpper tr.channel) (strToUpper c) = true) ∧
     strEndsWith (strToUpper oorX.channel) (strToUpper "X") = true ∧
     0 < oorX.delta) ∧
    ((iaga2002Write (oorX :: [oorY]) none none).2 = some dayRangeMsg ↔
      ∃ tr ∈ oorX :: [oorY],
        dayStart oorX.starttime + 86400000 ≤ tr.endtime) :=
  ⟨⟨by decide, by decide, by decide, by decide, by decide⟩,
   iaga2002_day_range_iff oorX [oorY] none none (by decide) (by decide)
     (by decide) (by decide) (by decide)⟩

end Geomag
